import Mathlib

/-!
# PyWebMonitor: shallow embedding and verification

A shallow embedding of `src/pywebmonitor.py` (a concurrent URL monitor that
polls HTTP endpoints, checks response bodies against optional regex patterns,
and records observations in a PostgreSQL table), together with theorems
settling the specification's claims about it.

External collaborators (the `urllib.parse.urlparse`, `int()` and `re.compile`
standard-library routines, the aiohttp transport, the psycopg2 driver and the
asyncio scheduler) are modelled explicitly: pure library routines as executable
Lean functions faithful to their behaviour on the inputs this program exercises,
and the effectful ones as explicit outcome data threaded through the functions
translated from the source.
-/

namespace PyWebMonitor

/-! ## Model of `urllib.parse.urlparse` (scheme and netloc components)

`is_valid_url` (pywebmonitor.py lines 111-116) only inspects `result.scheme`
and `result.netloc` for truthiness (non-emptiness).  We model exactly those two
components of `urlparse`:
* the scheme is the (lowercased) prefix before the first `:`, provided it is
  nonempty, starts with a letter, and contains only letters, digits, `+`, `-`,
  `.`; otherwise the scheme is empty and the input is left intact;
* the netloc is present only when the remainder starts with `//`, and extends
  to the next `/`, `?` or `#`. -/

def isSchemeChar (c : Char) : Bool :=
  c.isAlphanum || c == '+' || c == '-' || c == '.'

/-- Split a character list at the first `:`, returning the parts before and
after it. -/
def splitAtColon : List Char → Option (List Char × List Char)
  | [] => none
  | c :: cs =>
    if c == ':' then some ([], cs)
    else
      match splitAtColon cs with
      | some (pre, post) => some (c :: pre, post)
      | none => none

/-- The `(scheme, rest)` decomposition performed by `urlparse`: scheme is the
valid lowercased prefix before the first `:`, or `""` with the input unchanged. -/
def pyUrlsplitScheme (url : String) : String × String :=
  match splitAtColon url.toList with
  | some (pre, post) =>
    match pre with
    | [] => ("", url)
    | c :: _ =>
      if c.isAlpha && pre.all isSchemeChar then
        (String.mk (pre.map Char.toLower), String.mk post)
      else ("", url)
  | none => ("", url)

/-- The netloc component: present only after a leading `//` in the remainder,
up to the next `/`, `?` or `#`. -/
def pyNetloc (rest : String) : String :=
  match rest.toList with
  | '/' :: '/' :: r =>
    String.mk (r.takeWhile fun c => !(c == '/' || c == '?' || c == '#'))
  | _ => ""

/-- pywebmonitor.py lines 111-116: `urlparse(url)` then
`all([result.scheme, result.netloc])` — both components must be nonempty
(Python string truthiness).  The `except ValueError: return False` branch only
fires for malformed IPv6 brackets, which this component model never produces. -/
def is_valid_url (url : String) : Bool :=
  let (scheme, rest) := pyUrlsplitScheme url
  !scheme.isEmpty && !(pyNetloc rest).isEmpty

/-! ## Model of Python `int()` on strings

`is_valid_interval` calls `int(interval)` and treats `ValueError` as invalid.
Python `int()` strips surrounding whitespace, accepts one optional sign, then
requires decimal digits with single underscores allowed only between digits. -/

def digitVal (c : Char) : Nat := c.toNat - 48

/-- Digits after the first one: `('_'? digit)*`, accumulating the value. -/
def parseDigitsTail : Nat → List Char → Option Nat
  | acc, [] => some acc
  | acc, '_' :: c :: cs =>
    if c.isDigit then parseDigitsTail (acc * 10 + digitVal c) cs else none
  | _, ['_'] => none
  | acc, c :: cs =>
    if c.isDigit then parseDigitsTail (acc * 10 + digitVal c) cs else none

/-- An unsigned decimal literal: a digit followed by `parseDigitsTail`. -/
def parseUnsigned : List Char → Option Nat
  | [] => none
  | c :: cs => if c.isDigit then parseDigitsTail (digitVal c) cs else none

/-- Strip leading and trailing whitespace from a character list. -/
def stripWs (cs : List Char) : List Char :=
  ((cs.dropWhile Char.isWhitespace).reverse.dropWhile Char.isWhitespace).reverse

/-- `int(s)` for a Python `str` argument: `some n` on success, `none` when
Python raises `ValueError`. -/
def pyInt (s : String) : Option Int :=
  match stripWs s.toList with
  | '+' :: rest => (parseUnsigned rest).map Int.ofNat
  | '-' :: rest => (parseUnsigned rest).map fun n => -(Int.ofNat n)
  | rest => (parseUnsigned rest).map Int.ofNat

/-- pywebmonitor.py lines 119-125: `int(interval)` (ValueError ⇒ `False`), then
`isinstance(interval_val, int) and min_val <= interval_val <= max_val`.
`isinstance(int(x), int)` is always `True`, so it is modelled as the constant
it is.  The Python defaults are `min_val=5, max_val=300`; Lean passes them
explicitly (see `is_valid_interval_default`). -/
def is_valid_interval (interval : String) (min_val max_val : Int) : Bool :=
  match pyInt interval with
  | some interval_val => true && decide (min_val ≤ interval_val) && decide (interval_val ≤ max_val)
  | none => false

/-- `is_valid_interval` at its Python default bounds `(5, 300)`. -/
def is_valid_interval_default (interval : String) : Bool :=
  is_valid_interval interval 5 300

/-! ## Model of `re.compile` success and `re.search` truthiness

`is_valid_regex` only asks whether `re.compile(pattern)` succeeds.  We model
the syntactic checks exercised by this program's patterns: a trailing
backslash is an error, a `[` character class must be closed, and `(`/`)`
groups must balance; every other construct is accepted. -/

def reCompileScan : List Char → Nat → Bool → Bool
  | [], groups, inClass => !inClass && groups == 0
  | ['\\'], _, _ => false
  | '\\' :: _ :: cs, groups, inClass => reCompileScan cs groups inClass
  | '[' :: cs, groups, false => reCompileScan cs groups true
  | ']' :: cs, groups, true => reCompileScan cs groups false
  | '(' :: cs, groups, false => reCompileScan cs (groups + 1) false
  | ')' :: cs, groups, false =>
    if groups == 0 then false else reCompileScan cs (groups - 1) false
  | _ :: cs, groups, inClass => reCompileScan cs groups inClass

/-- `re.compile(p)` succeeds. -/
def reCompileOk (p : String) : Bool :=
  reCompileScan p.toList 0 false

/-- A Python value that is either a `str` or `None`: configuration patterns
flow through the program as such. -/
abbrev PyStrOrNone := Option String

/-- pywebmonitor.py lines 128-136: `None` is accepted, otherwise
`re.compile` must succeed. -/
def is_valid_regex (regex_pattern : PyStrOrNone) : Bool :=
  match regex_pattern with
  | none => true
  | some p => reCompileOk p

/-- `ps` is a prefix of `ts` (Boolean). -/
def prefixChars : List Char → List Char → Bool
  | [], _ => true
  | _ :: _, [] => false
  | p :: ps, t :: ts => p == t && prefixChars ps ts

/-- `pat` occurs contiguously inside `text` (Boolean). -/
def occursIn (pat : List Char) : List Char → Bool
  | [] => prefixChars pat []
  | t :: ts => prefixChars pat (t :: ts) || occursIn pat ts

/-- Truthiness of `re.search(pat, text)` (`bool(re.search(...))`), modelled for
the fragment this development evaluates concretely: the empty pattern matches
every text (it matches at position 0), and a pattern without regex
metacharacters matches exactly when it occurs literally as a substring.
Claims about patterns outside this fragment quantify over an arbitrary search
oracle instead of using this model. -/
def reSearchB (pat text : String) : Bool :=
  pat.isEmpty || occursIn pat.toList text.toList

/-! ## `validate_urls` (pywebmonitor.py lines 139-153) -/

/-- How Python's f-string renders a `str`-or-`None` value. -/
def pyStrOfOpt : PyStrOrNone → String
  | none => "None"
  | some s => s

/-- A raw target row `(url, interval, regex_pattern)` as unpacked by the
`for url, interval, regex_pattern in urls_data` loop. -/
abbrev RawRow := String × String × PyStrOrNone

/-- The conjunction guarding acceptance of a row (lines 144-148). -/
def rowOk (r : RawRow) : Bool :=
  is_valid_url r.1 && is_valid_interval r.2.1 5 300 && is_valid_regex r.2.2

/-- The warning `f"Invalid URL data: {url}, {interval}, {regex_pattern}"`
logged for a rejected row (line 151). -/
def rowWarning (r : RawRow) : String :=
  "Invalid URL data: " ++ r.1 ++ ", " ++ r.2.1 ++ ", " ++ pyStrOfOpt r.2.2

/-- A validated target `(url, int(interval), regex_pattern)` (line 149). -/
abbrev Target := String × Int × PyStrOrNone

/-- The tuple appended for a valid row; `int(interval)` is known to succeed
there (the row passed `is_valid_interval`). -/
def acceptedRow (r : RawRow) : Target :=
  (r.1, (pyInt r.2.1).getD 0, r.2.2)

/-- pywebmonitor.py lines 139-153: the loop appends `acceptedRow r` for each
valid row and the warning message for each invalid one, preserving input
order.  The result is `(validated_urls, warnings logged)`. -/
def validate_urls : List RawRow → List Target × List String
  | [] => ([], [])
  | r :: rest =>
    let (vs, ws) := validate_urls rest
    if rowOk r then (acceptedRow r :: vs, ws)
    else (vs, rowWarning r :: ws)

/-! ## Configuration (pywebmonitor.py lines 35-50, 75-91) and the path to the
database connection in `main` (lines 285-301) -/

/-- The six-field parameter dictionary; each value is a `str` or `None`
(environment variables may be unset, config keys may be absent). -/
structure DbParams where
  host : Option String
  port : Option String
  user : Option String
  password : Option String
  dbname : Option String
  tablename : Option String
deriving DecidableEq, Repr

/-- pywebmonitor.py lines 35-50: each field is `os.environ.get(...)`, which is
`None` when the variable is unset; the function never fails. -/
def read_db_environment_variables (env : String → Option String) : DbParams :=
  { host := env "DB_HOST", port := env "DB_PORT", user := env "DB_USER",
    password := env "DB_PASSWORD", dbname := env "DB_NAME",
    tablename := env "DB_TABLENAME" }

/-- The outcome of the config-file branch of `get_db_params`: the file exists
and parses (yielding its `Database` section), the file exists but
`read_config` raises (`configparser.Error` or missing section `KeyError`), or
the file does not exist. -/
inductive ConfigFile where
  | parsed (params : DbParams)
  | unparsable
  | absent
deriving DecidableEq, Repr

/-- pywebmonitor.py lines 75-91: with an existing file, return its parsed
section or `None` on a parse error; with no file, fall back to the
environment variables unconditionally. -/
def get_db_params (cfg : ConfigFile) (env : String → Option String) :
    Option DbParams :=
  match cfg with
  | .parsed p => some p
  | .unparsable => none
  | .absent => some (read_db_environment_variables env)

/-- pywebmonitor.py lines 292-298: `main` exits when `db_params == None` and
otherwise calls `connect_to_database(db_params)` — the only check between
reading the parameters and attempting the connection. -/
def main_reaches_connect (cfg : ConfigFile) (env : String → Option String) :
    Bool :=
  (get_db_params cfg env).isSome

/-! ## SQL statement construction (pywebmonitor.py lines 172-194 and 196-228) -/

/-- How `psycopg2.sql.Identifier` renders a name into a statement: wrapped in
double quotes, embedded double quotes doubled. -/
def quoteIdent (name : String) : String :=
  "\"" ++ (name.replace "\"" "\"\"") ++ "\""

/-- The text before `{table}` in the `create_table_if_not_exists` format
string (lines 175-185). -/
def createTablePrefix : String :=
  "\n            CREATE TABLE IF NOT EXISTS "

/-- The text after `{table}` in the `create_table_if_not_exists` format
string. -/
def createTableSuffix : String :=
  " (\n                id SERIAL PRIMARY KEY,\n                url VARCHAR(255),\n                status INT,\n                regex_match BOOLEAN,\n                response_time FLOAT,\n                page_content TEXT,\n                timestamp TIMESTAMP DEFAULT CURRENT_TIMESTAMP\n            )\n            "

/-- pywebmonitor.py lines 175-187: the executed statement is the triple-quoted
template with `tablename` spliced in by `str.format` — plain textual
substitution, no identifier quoting. -/
def create_table_statement (tablename : String) : String :=
  createTablePrefix ++ tablename ++ createTableSuffix

/-- The text after the identifier in the `write_to_db` INSERT template
(line 210). -/
def insertSuffix : String :=
  " (url, status, regex_match, response_time, page_content) VALUES (%s, %s, %s, %s, %s)"

/-- pywebmonitor.py lines 208-211: `sql.SQL("INSERT INTO {} ...").format(
sql.Identifier(tablename))` — the table name enters the statement via
identifier quoting. -/
def write_to_db_statement (tablename : String) : String :=
  "INSERT INTO " ++ quoteIdent tablename ++ insertSuffix

/-! ## `write_to_db` (pywebmonitor.py lines 196-228)

The database side effect is reduced to one bit of environment: whether the
INSERT raises `psycopg2.Error`.  The function's observable behaviour is the
record below. -/

/-- Observable behaviour of one `write_to_db` call. -/
structure WriteOutcome where
  /-- An exception propagates out of `write_to_db` to the caller. -/
  raised : Bool
  /-- The row was inserted and committed. -/
  committed : Bool
  /-- The `logging.exception("Database error:")` line ran. -/
  loggedDbError : Bool
  /-- The closing `logging.debug("... written to the DB successfully.")`
  line ran. -/
  loggedSuccessDebug : Bool
  /-- The value returned to the caller.  The Python function has no `return`
  statement, so the caller receives `None` on every path; there is no
  success/failure indication in the type. -/
  returnValue : Option Bool
deriving DecidableEq, Repr

/-- pywebmonitor.py lines 196-228: the `try` block executes the INSERT and
commit; `except psycopg2.Error` logs and falls through; the success debug line
is outside the `try` and runs on both paths; the implicit return value is
`None` on both paths. -/
def write_to_db (dbFails : Bool) : WriteOutcome :=
  { raised := false,
    committed := !dbFails,
    loggedDbError := dbFails,
    loggedSuccessDebug := true,
    returnValue := none }

/-! ## The poll loop `monitor_urls` (pywebmonitor.py lines 231-273)

One iteration of the `while True` loop is a function of the cycle's external
stimuli: what the HTTP GET / body read produced, the measured response time,
and whether the INSERT fails.  The regex engine is a parameter
(`search : String → String → Bool` standing for `bool(re.search(p, text))`). -/

/-- What `session.get(url)` / `response.text()` delivered this cycle: a
status code and body, or an exception (connection error, timeout, decode
failure) raised inside the `async with` blocks. -/
inductive FetchResult where
  | ok (status : Nat) (body : String)
  | exn (msg : String)
deriving DecidableEq, Repr

/-- External stimuli of one poll cycle. -/
structure CycleEnv where
  fetch : FetchResult
  /-- `(end_time - start_time).total_seconds()`, carried abstractly in
  microseconds. -/
  responseTimeMicros : Nat
  /-- Whether this cycle's INSERT raises `psycopg2.Error`. -/
  dbFails : Bool
deriving DecidableEq, Repr

/-- The observation assembled by a completed cycle (the arguments passed to
`write_to_db`). -/
structure Observation where
  url : String
  status : Nat
  regexMatch : Option Bool
  responseTimeMicros : Nat
  body : String
deriving DecidableEq, Repr

/-- pywebmonitor.py lines 253-255: `regex_match = None`, overwritten with
`bool(re.search(regex_pattern, content))` exactly when
`regex_pattern is not None`. -/
def cycle_regex_match (search : String → String → Bool)
    (regex_pattern : PyStrOrNone) (content : String) : Option Bool :=
  match regex_pattern with
  | none => none
  | some p => some (search p content)

/-- Result of one loop iteration: the task slept `interval` seconds and loops
again, or an exception escaped the iteration (ending the coroutine — the loop
body is not guarded by any `try`). -/
inductive CycleResult where
  | next (obs : Observation) (write : WriteOutcome) (sleptSeconds : Int)
  | raised (msg : String)
deriving DecidableEq, Repr

/-- pywebmonitor.py lines 237-273, one `while True` iteration: on a fetch
exception nothing catches it, so the iteration raises; on a response, the
regex flag is computed, `write_to_db` is called (it never raises on a
database error), and the task sleeps `interval` seconds before the next
iteration. -/
def monitor_urls_cycle (search : String → String → Bool) (url : String)
    (regex_pattern : PyStrOrNone) (interval : Int) (env : CycleEnv) :
    CycleResult :=
  match env.fetch with
  | .exn msg => .raised msg
  | .ok status body =>
    let obs : Observation :=
      { url := url, status := status,
        regexMatch := cycle_regex_match search regex_pattern body,
        responseTimeMicros := env.responseTimeMicros, body := body }
    .next obs (write_to_db env.dbFails) interval

/-- Whether a fetch outcome is an exception. -/
def FetchResult.isExn : FetchResult → Bool
  | .ok _ _ => false
  | .exn _ => true

/-- Running one Poll Task through a finite prefix of stimuli: the number of
completed (slept) cycles, and the exception that ended the coroutine if one
did.  `(n, none)` means the task consumed all `n` stimuli and is still
looping; `(k, some msg)` means cycle `k` raised and no later cycle ran. -/
def runTask (search : String → String → Bool) (url : String)
    (regex_pattern : PyStrOrNone) (interval : Int) :
    List CycleEnv → Nat × Option String
  | [] => (0, none)
  | e :: es =>
    match monitor_urls_cycle search url regex_pattern interval e with
    | .raised msg => (0, some msg)
    | .next _ _ _ =>
      let (n, r) := runTask search url regex_pattern interval es
      (n + 1, r)

/-! ## The supervisor `main_async_monitor_urls` (pywebmonitor.py lines
276-282)

`asyncio.gather(*tasks)` is awaited with the default
`return_exceptions=False`: the first exception raised by any task is
re-raised at the `await`, out of `main_async_monitor_urls` and into
`asyncio.run` in `main`, which then cancels the remaining tasks.  We model a
bounded run: each spawned task consumes its own stimulus list independently
(tasks share nothing but the database connection), and the supervisor
observes which tasks died. -/

/-- One task per validated target, `monitor_urls(url, regex_pattern,
interval, ...)` for `url, interval, regex_pattern in urls`, each run against
its own stimulus stream. -/
def main_async_monitor_urls (search : String → String → Bool)
    (urls : List Target) (envs : List (List CycleEnv)) :
    List (Nat × Option String) :=
  (urls.zip envs).map fun p => runTask search p.1.1 p.1.2.2 p.1.2.1 p.2

/-- Whether the `await asyncio.gather(*tasks)` raises — true exactly when
some spawned task's coroutine raised (default `return_exceptions=False`
re-raises the exception into the Supervisor). -/
def supervisor_raises (search : String → String → Bool)
    (urls : List Target) (envs : List (List CycleEnv)) : Bool :=
  (main_async_monitor_urls search urls envs).any fun r => r.2.isSome

/-! ## The startup tail of `main` (pywebmonitor.py lines 311-331) -/

/-- How `main` ends after the database is set up: it crashes with an uncaught
exception (non-zero process exit), calls `sys.exit()` (exit code 0), or
reaches `asyncio.run(main_async_monitor_urls(...))` with the given targets. -/
inductive MainOutcome where
  | crashed (msg : String)
  | exitedZero
  | spawned (targets : List Target)
deriving DecidableEq, Repr

/-- `main` exited (by whichever route) before spawning any Poll Task. -/
def earlyExit : MainOutcome → Bool
  | .spawned _ => false
  | _ => true

/-- pywebmonitor.py lines 311-331: `read_urls` returns `None` when the file
is unreadable (its exceptions are caught internally); `main` performs no
`None` check, so `validate_urls(None)` raises `TypeError` (iterating `None`)
and the process dies before any polling.  Otherwise rows are validated; with
zero surviving targets `sys.exit()` runs; otherwise the validated targets are
handed to `asyncio.run(main_async_monitor_urls(...))`. -/
def main_poll_phase (urls_data : Option (List RawRow)) : MainOutcome :=
  match urls_data with
  | none => .crashed "TypeError: NoneType object is not iterable"
  | some rows =>
    let validated := (validate_urls rows).1
    if validated.isEmpty then .exitedZero
    else .spawned validated

/-! ## Helper lemmas -/

/-- Closed form of the validation loop: accepted rows in input order, one
warning per rejected row in input order. -/
theorem validate_urls_spec (rows : List RawRow) :
    validate_urls rows
      = (rows.filterMap fun r => if rowOk r then some (acceptedRow r) else none,
         (rows.filter fun r => !rowOk r).map rowWarning) := by
  induction rows with
  | nil => rfl
  | cons r rest ih => cases hr : rowOk r <;> simp [validate_urls, ih, hr]

/-- A cycle whose fetch raises ends the task at once. -/
theorem runTask_exn (search : String → String → Bool) (url : String)
    (pat : PyStrOrNone) (intv : Int) (msg : String) (rt : Nat) (db : Bool)
    (es : List CycleEnv) :
    runTask search url pat intv (⟨.exn msg, rt, db⟩ :: es) = (0, some msg) :=
  rfl

/-- A cycle whose fetch succeeds completes (whatever the database does) and
the task continues with the remaining stimuli. -/
theorem runTask_ok (search : String → String → Bool) (url : String)
    (pat : PyStrOrNone) (intv : Int) (s : Nat) (b : String) (rt : Nat)
    (db : Bool) (es : List CycleEnv) :
    runTask search url pat intv (⟨.ok s b, rt, db⟩ :: es)
      = ((runTask search url pat intv es).1 + 1,
         (runTask search url pat intv es).2) :=
  rfl

/-- A task's coroutine raises exactly when some stimulus in its stream is a
fetch exception; database failures never raise. -/
theorem runTask_dies_iff (search : String → String → Bool) (url : String)
    (pat : PyStrOrNone) (intv : Int) (es : List CycleEnv) :
    (runTask search url pat intv es).2.isSome
      = es.any fun e => e.fetch.isExn := by
  induction es with
  | nil => rfl
  | cons e es ih =>
    obtain ⟨f, rt, db⟩ := e
    cases f <;> simp [runTask_exn, runTask_ok, FetchResult.isExn, ih]

/-- The gathered task list contains a raised coroutine exactly when some
spawned pair's stimulus stream contains a fetch exception. -/
theorem gather_any (search : String → String → Bool)
    (l : List (Target × List CycleEnv)) :
    (l.map fun p => runTask search p.1.1 p.1.2.2 p.1.2.1 p.2).any
        (fun r => r.2.isSome)
      = l.any fun p => p.2.any fun e => e.fetch.isExn := by
  induction l with
  | nil => rfl
  | cons p l ih => simp [runTask_dies_iff, ih]

/-- A list is a Boolean prefix of itself followed by anything. -/
theorem prefixChars_self (l rest : List Char) :
    prefixChars l (l ++ rest) = true := by
  induction l with
  | nil => rfl
  | cons c cs ih => simp [prefixChars, ih]

/-- A contiguous occurrence placed between two contexts is found by
`occursIn`. -/
theorem occursIn_append (pat pre suf : List Char) :
    occursIn pat (pre ++ pat ++ suf) = true := by
  induction pre with
  | nil =>
    cases hp : pat with
    | nil => cases suf <;> simp [occursIn, prefixChars]
    | cons p ps =>
      simp only [List.nil_append, List.cons_append, occursIn, Bool.or_eq_true]
      exact Or.inl (prefixChars_self (p :: ps) suf)
  | cons c cs ih =>
    simp only [List.cons_append, occursIn, Bool.or_eq_true]
    exact Or.inr (by simpa [List.append_assoc] using ih)

/-! ## Claim theorems -/

/-- Claim C1, refuted as stated: a single fetch exception in the second of
two spawned Poll Tasks makes `await asyncio.gather(*tasks)` raise — the
steady-state error escapes its task and reaches the Supervisor, contradicting
"every steady-state error stays contained within the failing task and never
reaches sibling tasks or the Supervisor". -/
theorem claim_C1_counterexample :
    supervisor_raises reSearchB
      [("http://a.com", 10, some "x"), ("http://b.com", 10, some "x")]
      [[⟨.ok 200 "x", 5, false⟩], [⟨.exn "ClientConnectionError", 0, false⟩]]
      = true := by decide

/-- Claim C1 (amended): recorder (database) failures and successful cycles
never make the gather raise, but a fetch/transport exception in any one task
always propagates through `asyncio.gather` into the Supervisor — the
supervisor raises exactly when some spawned task's stimulus stream contains a
fetch exception. -/
theorem claim_C1_amended (search : String → String → Bool)
    (urls : List Target) (envs : List (List CycleEnv)) :
    supervisor_raises search urls envs
      = (urls.zip envs).any fun p => p.2.any fun e => e.fetch.isExn :=
  gather_any search (urls.zip envs)

/-- Claim C2, refuted as stated: a fetch exception during a poll cycle is not
caught anywhere in `monitor_urls`'s loop body, so the cycle raises instead of
proceeding to sleep, and the task completes zero further cycles even though a
healthy stimulus follows — it does not retry on the next cycle. -/
theorem claim_C2_counterexample :
    monitor_urls_cycle reSearchB "http://a.com" (some "\\w+") 10
        ⟨.exn "ClientConnectionError", 0, false⟩
      = .raised "ClientConnectionError"
    ∧ runTask reSearchB "http://a.com" (some "\\w+") 10
        [⟨.exn "ClientConnectionError", 0, false⟩, ⟨.ok 200 "a", 5, false⟩]
      = (0, some "ClientConnectionError") :=
  ⟨rfl, rfl⟩

/-- Claim C2 (amended): a network/transport error during a poll cycle is
fatal to the task — the exception escapes the unguarded loop body, the task
never reaches its sleep, and no later cycle runs. -/
theorem claim_C2_amended (search : String → String → Bool) (url : String)
    (pat : PyStrOrNone) (intv : Int) (msg : String) (rt : Nat) (db : Bool)
    (es : List CycleEnv) :
    monitor_urls_cycle search url pat intv ⟨.exn msg, rt, db⟩ = .raised msg
    ∧ runTask search url pat intv (⟨.exn msg, rt, db⟩ :: es) = (0, some msg) :=
  ⟨rfl, rfl⟩

/-- Claim C3, refuted as stated: on a persistence failure `write_to_db` does
log and does not raise, but it returns to its caller exactly what it returns
on success (Python's implicit `None`), so the failure is never "reported as
failure to the caller"; it even runs the success debug log line. -/
theorem claim_C3_counterexample :
    (write_to_db true).returnValue = (write_to_db false).returnValue
    ∧ (write_to_db true).loggedDbError = true
    ∧ (write_to_db true).raised = false
    ∧ (write_to_db true).loggedSuccessDebug = true := by
  decide

/-- Claim C3 (amended): a persistence failure is logged and no exception
propagates to the calling Poll Task, whose loop is not unwound — the cycle
completes and the next cycle still runs after the sleep — but the caller
receives `None` in every case, with no failure indication. -/
theorem claim_C3_amended (search : String → String → Bool) (url : String)
    (pat : PyStrOrNone) (intv : Int) (s : Nat) (b : String) (rt : Nat)
    (es : List CycleEnv) :
    (write_to_db true).raised = false
    ∧ (write_to_db true).loggedDbError = true
    ∧ (write_to_db true).returnValue = none
    ∧ runTask search url pat intv (⟨.ok s b, rt, true⟩ :: es)
        = ((runTask search url pat intv es).1 + 1,
           (runTask search url pat intv es).2) :=
  ⟨rfl, rfl, rfl, rfl⟩

/-- Claim C4, refuted as stated: the loop tests `regex_pattern is not None`
only, so for the empty-string pattern — "absent" by the claim's definition —
the observation still carries a boolean (`bool(re.search("", content))`,
which is `True`), not null. -/
theorem claim_C4_counterexample :
    monitor_urls_cycle reSearchB "http://a.com" (some "") 10
        ⟨.ok 200 "hello", 37, false⟩
      = .next ⟨"http://a.com", 200, some true, 37, "hello"⟩
          (write_to_db false) 10
    ∧ cycle_regex_match reSearchB (some "") "hello" = some true :=
  ⟨rfl, rfl⟩

/-- Claim C4 (amended): `regex_matched` is null exactly when the pattern is
`None`; any string pattern — the empty string included — yields a boolean. -/
theorem claim_C4_amended (search : String → String → Bool) (url : String)
    (pat : PyStrOrNone) (intv : Int) (s : Nat) (b : String) (rt : Nat)
    (db : Bool) :
    monitor_urls_cycle search url pat intv ⟨.ok s b, rt, db⟩
      = .next ⟨url, s, cycle_regex_match search pat b, rt, b⟩
          (write_to_db db) intv
    ∧ (cycle_regex_match search pat b = none ↔ pat = none) := by
  refine ⟨rfl, ?_⟩
  cases pat <;> simp [cycle_regex_match]

/-- Claim C5 (confirmed): on the three given rows exactly the first survives,
with its interval converted to the integer 10, and the two invalid rows each
produce a logged warning; in general the accepted output is the input
filtered in order, invalid rows simply omitted. -/
theorem claim_C5 :
    validate_urls
        [("http://a.com", "10", some "\\w+"), ("bad", "20", some "\\d+"),
         ("http://b.com", "NaN", some "\\w+")]
      = ([("http://a.com", 10, some "\\w+")],
         ["Invalid URL data: bad, 20, \\d+",
          "Invalid URL data: http://b.com, NaN, \\w+"])
    ∧ ∀ rows : List RawRow,
        (validate_urls rows).1
          = rows.filterMap fun r =>
              if rowOk r then some (acceptedRow r) else none := by
  refine ⟨by decide, fun rows => ?_⟩
  simp [validate_urls_spec]

/-- Claim C6 (confirmed): `is_valid_interval` accepts exactly the strings
that `int()` parses to a value within the inclusive bounds, rejects every
non-numeric string, and its Python defaults are `(5, 300)`. -/
theorem claim_C6 (s : String) (mn mx : Int) :
    (is_valid_interval s mn mx = true
      ↔ ∃ n, pyInt s = some n ∧ mn ≤ n ∧ n ≤ mx)
    ∧ (pyInt s = none → is_valid_interval s mn mx = false)
    ∧ is_valid_interval_default s = is_valid_interval s 5 300 := by
  refine ⟨?_, fun h => by simp [is_valid_interval, h], rfl⟩
  cases h : pyInt s with
  | none => simp [is_valid_interval, h]
  | some n => simp [is_valid_interval, h]

/-- Witness for C6: the bound-inclusive acceptance at `"10"` and the
rejection of the non-numeric `"NaN"`, both instances of `claim_C6`. -/
theorem claim_C6_witness :
    is_valid_interval "10" 5 300 = true
    ∧ is_valid_interval "NaN" 5 300 = false :=
  ⟨(claim_C6 "10" 5 300).1.mpr ⟨10, by decide, by decide, by decide⟩,
   (claim_C6 "NaN" 5 300).2.1 (by decide)⟩

/-- Claim C7 (confirmed): inserting an invalid row anywhere leaves the
validated output exactly what the remaining rows produce, and adds precisely
one warning naming the row's raw values, in position — the pass never aborts
and continues through the rows after the failure. -/
theorem claim_C7 (pre post : List RawRow) (r : RawRow)
    (h : rowOk r = false) :
    (validate_urls (pre ++ r :: post)).1 = (validate_urls (pre ++ post)).1
    ∧ (validate_urls (pre ++ r :: post)).2
        = (validate_urls pre).2
            ++ rowWarning r :: (validate_urls post).2 := by
  constructor <;> simp [validate_urls_spec, h]

/-- Witness for C7: the invalid row `("bad", "20", "\d+")` between two valid
rows is dropped with its warning while both neighbours are validated, an
instance of `claim_C7`. -/
theorem claim_C7_witness :
    (validate_urls
        [("http://a.com", "10", some "\\w+"), ("bad", "20", some "\\d+"),
         ("http://b.com", "30", some "\\w+")]).1
      = (validate_urls
          [("http://a.com", "10", some "\\w+"),
           ("http://b.com", "30", some "\\w+")]).1
    ∧ (validate_urls
        [("http://a.com", "10", some "\\w+"), ("bad", "20", some "\\d+"),
         ("http://b.com", "30", some "\\w+")]).2
      = (validate_urls [("http://a.com", "10", some "\\w+")]).2
          ++ rowWarning ("bad", "20", some "\\d+")
            :: (validate_urls [("http://b.com", "30", some "\\w+")]).2 :=
  claim_C7 [("http://a.com", "10", some "\\w+")]
    [("http://b.com", "30", some "\\w+")] ("bad", "20", some "\\d+")
    (by decide)

/-- Claim C8, refuted as stated: `create_table_if_not_exists` splices the
configured table name into its SQL by plain `str.format` — the injection
payload survives verbatim, and the statement differs from what identifier
escaping would have produced. -/
theorem claim_C8_counterexample :
    create_table_statement "mon; DROP TABLE users; --"
      = createTablePrefix ++ "mon; DROP TABLE users; --" ++ createTableSuffix
    ∧ create_table_statement "mon; DROP TABLE users; --"
      ≠ createTablePrefix ++ quoteIdent "mon; DROP TABLE users; --"
          ++ createTableSuffix := by
  refine ⟨rfl, ?_⟩
  decide

/-- Claim C8 (amended): the INSERT path (`write_to_db`) does escape the table
name as an identifier via `sql.Identifier`, but the schema-creation statement
always contains the configured name as raw text. -/
theorem claim_C8_amended (t : String) :
    write_to_db_statement t = "INSERT INTO " ++ quoteIdent t ++ insertSuffix
    ∧ occursIn t.toList (create_table_statement t).toList = true := by
  refine ⟨rfl, ?_⟩
  have hd : (create_table_statement t).toList
      = createTablePrefix.toList ++ t.toList ++ createTableSuffix.toList := by
    simp [create_table_statement, String.toList, String.data_append]
  rw [hd]
  exact occursIn_append t.toList createTablePrefix.toList createTableSuffix.toList

/-- Claim C9, refuted as stated: with no config file and no environment
variables set, `get_db_params` returns a dictionary whose six fields are all
`None`, and `main` — which only compares the dictionary itself against
`None` — proceeds to the connection attempt with it. -/
theorem claim_C9_counterexample :
    get_db_params .absent (fun _ => none)
      = some ⟨none, none, none, none, none, none⟩
    ∧ main_reaches_connect .absent (fun _ => none) = true :=
  ⟨rfl, rfl⟩

/-- Claim C9 (amended): the only pre-connection check is `db_params == None`,
which is `None` exactly on a config-file parse error; the environment
fallback and any parsed file reach the connection step whatever their fields
hold — no per-field non-null validation exists. -/
theorem claim_C9_amended (env : String → Option String) (p : DbParams) :
    main_reaches_connect .absent env = true
    ∧ main_reaches_connect .unparsable env = false
    ∧ main_reaches_connect (.parsed p) env = true :=
  ⟨rfl, rfl, rfl⟩

/-- Claim C10 (confirmed): when the target list is unreadable (`read_urls`
returned `None`, on which `validate_urls` raises `TypeError`, killing the
process with a non-zero exit) or zero targets survive validation
(`sys.exit()`), `main` ends before any polling and never reaches the spawn of
Poll Tasks. -/
theorem claim_C10 (u : Option (List RawRow))
    (h : u = none
      ∨ ∃ rows, u = some rows ∧ (validate_urls rows).1 = []) :
    earlyExit (main_poll_phase u) = true
    ∧ ∀ ts, main_poll_phase u ≠ .spawned ts := by
  rcases h with h | ⟨rows, hu, hv⟩
  · subst h
    exact ⟨rfl, fun ts hc => by cases hc⟩
  · subst hu
    have hz : main_poll_phase (some rows) = .exitedZero := by
      simp [main_poll_phase, hv]
    rw [hz]
    exact ⟨rfl, fun ts hc => by cases hc⟩

/-- Witness for C10: an unreadable target list (`read_urls` returning
`None`) ends `main` before any Poll Task is spawned, an instance of
`claim_C10`. -/
theorem claim_C10_witness : earlyExit (main_poll_phase none) = true :=
  (claim_C10 none (Or.inl rfl)).1

end PyWebMonitor
